import Mathlib

/-!
Shallow embedding of the social-media-content-analyzer pipeline
(src/config.py, src/services/claude_service.py,
src/services/evaluation_service.py, src/main.py).

Modelling conventions:
* Python floats are modelled as rationals (ℚ).
* Python dicts originating from `json.loads` are modelled as association
  lists with distinct keys, preserving insertion order (CPython dicts are
  ordered; JSON objects decoded by `json.loads` have unique keys).
* A JSON value is modelled by `JValue`.  The outcome of one
  `_make_api_call` invocation is a `CallOutcome`: `raised` models the
  exception re-raised after the final retry attempt, `returned r` models a
  returned reply text whose `json.loads` outcome is `r` (`none` = the text
  is not valid JSON, i.e. `json.JSONDecodeError`).
* The pipeline is developed in two views.  The typed view
  (`classify_post_type` … `perform_full_analysis`) is the restriction to
  gateway values in the well-typed range — string labels, numeric
  confidence, numeric score entries — on which no step of the
  orchestrator raises.  The full dynamic view
  (`classify_post_type_full` … `perform_full_analysis_full`) models the
  unrestricted semantics, where type-confused reply values raise
  `TypeError`/`AttributeError` inside the orchestrator's steps and reach
  the `except` handler of `perform_full_analysis`, producing the
  `failure_response` record.
* `datetime.now(timezone.utc)` is explicit state: the orchestrator takes
  the current instant as a `UTCDateTime` argument.
-/

namespace SMCA

/-! ### src/config.py : label sets, thresholds, feature flags -/

def EN_POST_TYPES : List String :=
  ["Factual Claim", "Opinion", "Question", "Personal Update", "Promotion"]

def DE_POST_TYPES : List String :=
  ["Faktische Behauptung", "Meinungsäußerung", "Frage",
   "Persönliche Mitteilung", "Werbung / Spam"]

def EN_POLITICAL_LABELS : List String :=
  ["Left", "Center-Left", "Center", "Center-Right", "Right", "Neutral"]

def DE_POLITICAL_LABELS : List String :=
  ["Politisch Links", "Politisch Mitte-Links", "Politisch Mitte",
   "Politisch Mitte-Rechts", "Politisch Rechts", "Politisch Neutral"]

def EN_INTENT_LABELS : List String :=
  ["Informative", "Persuasive", "Satirical",
   "Provocative", "Commercial", "Entertaining"]

def DE_INTENT_LABELS : List String :=
  ["Informativ", "Überzeugend", "Satirisch",
   "Provozierend", "Kommerziell", "Unterhaltend"]

def INTENT_CONFIDENCE_THRESHOLD : ℚ := 3/10

def SPAM_CONFIDENCE_THRESHOLD : ℚ := 7/10

/-- Feature flags of `Settings` that the orchestrator consults
(`ENABLE_VERACITY_CHECK`, `ENABLE_NUANCE_ANALYSIS`). -/
structure Flags where
  enable_veracity_check : Bool
  enable_nuance_analysis : Bool
deriving DecidableEq, Repr

/-! ### JSON replies -/

/-- A JSON value, as produced by `json.loads` on a model reply. -/
inductive JValue where
  | jstr : String → JValue
  | jnum : ℚ → JValue
  | jobj : List (String × JValue) → JValue

/-- Python `dict.get(key, default)` on an association list with distinct
keys (JSON objects decoded by `json.loads` always have distinct keys). -/
def lookupD {α : Type} : List (String × α) → String → α → α
  | [], _, dflt => dflt
  | p :: rest, key, dflt => if p.1 = key then p.2 else lookupD rest key dflt

/-- Python `data.get(key, default)` on a decoded JSON object. -/
def jgetD (fields : List (String × JValue)) (key : String) (dflt : JValue) :
    JValue :=
  lookupD fields key dflt

/-- Well-typed projection of a reply value to a string, used by the typed
view: a string is itself; for a non-string value the typed view
substitutes a rendering no table contains.  (Dynamically, a numeric
value is a hashable key missing from every table, while a dict key
raises `TypeError` — that fault is modelled in `map_to_post_type_full`.) -/
def JValue.asLabel : JValue → String
  | .jstr s => s
  | _ => "\x00nonstring"

/-- Well-typed projection of `data.get("confidence", 0.5)` to a number,
used by the typed view.  (Dynamically a non-numeric confidence is handed
through raw and raises `TypeError` in `_detect_spam`; that path is
modelled in `detect_spam_full` and `perform_full_analysis_full`.) -/
def JValue.asNum (dflt : ℚ) : JValue → ℚ
  | .jnum q => q
  | _ => dflt

/-- The numeric entries of a decoded `scores` object, in insertion order
— the well-typed projection used by the typed view.  (Dynamically a
non-numeric entry stays in the dict and raises in
`_build_political_analysis` / `_build_intent_list`; those faults are
modelled in `build_political_analysis_full` / `build_intent_list_full`,
and when they are absent the two views coincide on the entries this
projection extracts.) -/
def JValue.numEntries : JValue → List (String × ℚ)
  | .jobj fs =>
      fs.filterMap (fun p =>
        match p.2 with
        | .jnum q => some (p.1, q)
        | _ => none)
  | _ => []

/-- The loop `for label in labels: if label not in scores: scores[label] = 0.0`:
labels absent from the dict are appended with value 0, in label-set order. -/
def fillMissing (scores : List (String × ℚ)) (labels : List String) :
    List (String × ℚ) :=
  scores ++ (labels.filter
    (fun l => ¬ scores.any (fun p => p.1 = l))).map (fun l => (l, 0))

/-! ### src/services/claude_service.py : the Model Gateway -/

/-- Outcome of one `_make_api_call` invocation as seen by a Gateway
operation. -/
inductive CallOutcome where
  | raised
  | returned : Option JValue → CallOutcome

/-- One attempt of the vendor call inside `_make_api_call`: either a raised
exception or the returned reply text. -/
def AttemptResult := Except Unit String

/-- The retry loop body of `_make_api_call`, from attempt index `start`
with `fuel` attempts remaining: returns the first successful attempt's
text; when the last remaining attempt fails, re-raises (`.error`). -/
def makeApiCallFrom (attempts : ℕ → Except Unit String) (start : ℕ) :
    ℕ → Except Unit String
  | 0 => .error ()
  | n + 1 =>
      match attempts start with
      | .ok s => .ok s
      | .error e => if n = 0 then .error e else makeApiCallFrom attempts (start + 1) n

/-- `_make_api_call(prompt, max_retries=3)` over the sequence of per-attempt
outcomes. -/
def makeApiCall (attempts : ℕ → Except Unit String) (maxRetries : ℕ := 3) :
    Except Unit String :=
  makeApiCallFrom attempts 0 maxRetries

/-- The backoff sleeps performed by `_make_api_call`: `2^attempt` seconds
after each failed non-final attempt. -/
def backoffSleeps (attempts : ℕ → Except Unit String) (maxRetries : ℕ := 3) :
    List ℕ :=
  ((List.range maxRetries).filter
    (fun i => i + 1 < maxRetries ∧ (attempts i).isOk = false ∧
      ∀ j < i, (attempts j).isOk = false)).map (fun i => 2 ^ i)

/-- What one full request observes from the Gateway: `enabled` is
`ClaudeService.enabled` (credentials configured), and one `CallOutcome`
per operation, since each operation performs at most one
`_make_api_call` per request. -/
structure GatewayEnv where
  enabled : Bool
  classifyReply : CallOutcome
  politicalReply : CallOutcome
  intentsReply : CallOutcome
  veracityReply : CallOutcome

/-- `_get_post_type_labels`. -/
def postTypeLabels (language : String) : List String :=
  if language = "de" then DE_POST_TYPES else EN_POST_TYPES

/-- `_get_political_labels`. -/
def politicalLabels (language : String) : List String :=
  if language = "de" then DE_POLITICAL_LABELS else EN_POLITICAL_LABELS

/-- `_get_intent_labels`. -/
def intentLabels (language : String) : List String :=
  if language = "de" then DE_INTENT_LABELS else EN_INTENT_LABELS

/-- `_get_default_classification`. -/
def getDefaultClassification (language : String) :
    String × ℚ × List (String × ℚ) :=
  let labels := postTypeLabels language
  (labels.headI, 1 / labels.length,
   labels.map (fun l => (l, 1 / (labels.length : ℚ))))

/-- `_get_default_political_analysis`. -/
def getDefaultPoliticalAnalysis (language : String) : List (String × ℚ) :=
  let labels := politicalLabels language
  labels.map (fun l => (l, 1 / (labels.length : ℚ)))

/-- `_get_default_intent_analysis`. -/
def getDefaultIntentAnalysis (language : String) : List (String × ℚ) :=
  let labels := intentLabels language
  labels.map (fun l => (l, 1 / (labels.length : ℚ)))

/-- `_get_default_veracity_analysis`. -/
def getDefaultVeracityAnalysis : String × String × String :=
  ("Unverifiable", "Analysis not available", "Default method used")

/-- `_parse_classification_response`.  A malformed reply (`none`) is the
`json.JSONDecodeError` branch; a non-object top level makes `data.get`
fail with an `AttributeError` that the except clause of the parse method
does not catch (`.error`), to be absorbed by the operation's own handler. -/
def parseClassificationResponse (reply : Option JValue)
    (labels : List String) :
    Except Unit (String × ℚ × List (String × ℚ)) :=
  match reply with
  | none =>
      .ok (labels.headI, 1/2, labels.map (fun l => (l, 1 / (labels.length : ℚ))))
  | some (.jobj data) =>
      let primary := (jgetD data "primary_label" (.jstr labels.headI)).asLabel
      let confidence := (jgetD data "confidence" (.jnum (1/2))).asNum (1/2)
      let scores := (jgetD data "scores" (.jobj [])).numEntries
      .ok (primary, confidence, fillMissing scores labels)
  | some _ => .error ()

/-- `_parse_political_response`. -/
def parsePoliticalResponse (reply : Option JValue) (labels : List String) :
    Except Unit (List (String × ℚ)) :=
  match reply with
  | none => .ok (labels.map (fun l => (l, 1 / (labels.length : ℚ))))
  | some (.jobj data) =>
      .ok (fillMissing (jgetD data "scores" (.jobj [])).numEntries labels)
  | some _ => .error ()

/-- `_parse_intent_response`. -/
def parseIntentResponse (reply : Option JValue) (labels : List String) :
    Except Unit (List (String × ℚ)) :=
  match reply with
  | none => .ok (labels.map (fun l => (l, 1 / (labels.length : ℚ))))
  | some (.jobj data) =>
      .ok (fillMissing (jgetD data "scores" (.jobj [])).numEntries labels)
  | some _ => .error ()

/-- `_parse_veracity_response`. -/
def parseVeracityResponse (reply : Option JValue) :
    Except Unit (String × String × String) :=
  match reply with
  | none => .ok ("Unverifiable", "Error in analysis", "No method available")
  | some (.jobj data) =>
      .ok ((jgetD data "status" (.jstr "Unverifiable")).asLabel,
           (jgetD data "justification" (.jstr "No analysis available")).asLabel,
           (jgetD data "verification_method" (.jstr "No method specified")).asLabel)
  | some _ => .error ()

/-- `ClaudeService.classify_post_type`: the unconfigured gateway returns the
default; otherwise the whole call-and-parse body runs under
`except Exception`, so both a raised call and a parse-layer fault fall
back to `_get_default_classification`. -/
def classify_post_type (env : GatewayEnv) (text : String) (language : String) :
    String × ℚ × List (String × ℚ) :=
  if env.enabled = false then getDefaultClassification language
  else
    match env.classifyReply with
    | .raised => getDefaultClassification language
    | .returned r =>
        match parseClassificationResponse r (postTypeLabels language) with
        | .ok res => res
        | .error _ => getDefaultClassification language

/-- `ClaudeService.analyze_political_tendency`. -/
def analyze_political_tendency (env : GatewayEnv) (text : String)
    (language : String) : List (String × ℚ) :=
  if env.enabled = false then getDefaultPoliticalAnalysis language
  else
    match env.politicalReply with
    | .raised => getDefaultPoliticalAnalysis language
    | .returned r =>
        match parsePoliticalResponse r (politicalLabels language) with
        | .ok res => res
        | .error _ => getDefaultPoliticalAnalysis language

/-- `ClaudeService.analyze_intents`. -/
def analyze_intents (env : GatewayEnv) (text : String) (language : String) :
    List (String × ℚ) :=
  if env.enabled = false then getDefaultIntentAnalysis language
  else
    match env.intentsReply with
    | .raised => getDefaultIntentAnalysis language
    | .returned r =>
        match parseIntentResponse r (intentLabels language) with
        | .ok res => res
        | .error _ => getDefaultIntentAnalysis language

/-- `ClaudeService.analyze_veracity`. -/
def analyze_veracity (env : GatewayEnv) (claim : String) (language : String) :
    String × String × String :=
  if env.enabled = false then getDefaultVeracityAnalysis
  else
    match env.veracityReply with
    | .raised => getDefaultVeracityAnalysis
    | .returned r =>
        match parseVeracityResponse r with
        | .ok res => res
        | .error _ => getDefaultVeracityAnalysis

/-! ### src/models/api_models.py : closed enumerations and records
(the module itself is outside src/, but every member used by the
orchestrator appears literally in src/services/evaluation_service.py) -/

inductive PostType where
  | FactualClaim | Opinion | Question | PersonalUpdate | Promotion
deriving DecidableEq, Repr

inductive PoliticalTendency where
  | Left | CenterLeft | Center | CenterRight | Right | Neutral
deriving DecidableEq, Repr

inductive Intent where
  | Informative | Persuasive | Satirical | Provocative | Commercial | Entertaining
deriving DecidableEq, Repr

inductive VeracityStatus where
  | FactuallyCorrect | Untruth | Misleading | Unverifiable
deriving DecidableEq, Repr

structure PostAnalysis where
  post_type : PostType
  is_spam : Bool
deriving DecidableEq, Repr

structure VeracityAnalysis where
  status : VeracityStatus
  justification : String
  verification_method : String
  sources : List String
deriving DecidableEq, Repr

structure PoliticalTendencyAnalysis where
  primary : PoliticalTendency
  scores : List (String × ℚ)
deriving DecidableEq, Repr

structure NuanceAnalysis where
  political_tendency : PoliticalTendencyAnalysis
  detected_intents : List Intent
deriving DecidableEq, Repr

structure AnalysisResult where
  post_id : String
  analysis_timestamp : String
  language : String
  post_analysis : PostAnalysis
  veracity_analysis : Option VeracityAnalysis
  nuance_analysis : Option NuanceAnalysis
  processing_error : Option String
deriving DecidableEq, Repr

/-! ### Timestamps -/

/-- An aware UTC instant, the explicit-state stand-in for
`datetime.now(timezone.utc)`. -/
structure UTCDateTime where
  year : ℕ
  month : ℕ
  day : ℕ
  hour : ℕ
  minute : ℕ
  second : ℕ
  microsecond : ℕ
deriving DecidableEq, Repr

/-- Zero-pad a decimal rendering to width `w`. -/
def padNum (w : ℕ) (n : ℕ) : String :=
  let s := toString n
  ⟨List.replicate (w - s.length) '0'⟩ ++ s

/-- `datetime.isoformat()` of an aware UTC datetime, without the trailing
UTC offset: `YYYY-MM-DDTHH:MM:SS[.ffffff]`. -/
def isoBody (d : UTCDateTime) : String :=
  padNum 4 d.year ++ "-" ++ padNum 2 d.month ++ "-" ++ padNum 2 d.day ++
  "T" ++ padNum 2 d.hour ++ ":" ++ padNum 2 d.minute ++ ":" ++
  padNum 2 d.second ++
  (if d.microsecond = 0 then "" else "." ++ padNum 6 d.microsecond)

/-- `datetime.now(timezone.utc).isoformat()`: an aware datetime always
renders its offset, here `+00:00`. -/
def isoformatUTC (d : UTCDateTime) : String :=
  isoBody d ++ "+00:00"

/-- The orchestrator's `analysis_timestamp` value:
`datetime.now(timezone.utc).isoformat() + "Z"`. -/
def analysisTimestamp (d : UTCDateTime) : String :=
  isoformatUTC d ++ "Z"

/-- Consume exactly `n` decimal digits. -/
def takeDigits : ℕ → List Char → Option (List Char)
  | 0, cs => some cs
  | n + 1, c :: cs => if c.isDigit then takeDigits n cs else none
  | _ + 1, [] => none

/-- Consume one expected character. -/
def expectChar (c : Char) : List Char → Option (List Char)
  | d :: cs => if d = c then some cs else none
  | [] => none

/-- Consume an optional fractional-seconds part `.d+`. -/
def skipFraction : List Char → Option (List Char)
  | '.' :: cs =>
      match cs with
      | c :: rest => if c.isDigit then some (rest.dropWhile Char.isDigit) else none
      | [] => none
  | cs => some cs

/-- An ISO-8601 time-zone designator ending the string: either `Z` or a
numeric offset `±hh:mm`, with nothing after it. -/
def isZoneDesignator : List Char → Bool
  | ['Z'] => true
  | [c, d1, d2, colon, d3, d4] =>
      (c == '+' || c == '-') && d1.isDigit && d2.isDigit &&
        colon == ':' && d3.isDigit && d4.isDigit
  | _ => false

/-- Lexical well-formedness of an ISO-8601 UTC instant:
`YYYY-MM-DDThh:mm:ss[.d+]` followed by exactly one time-zone designator. -/
def validISO8601 (s : String) : Bool :=
  match (do
    let cs ← takeDigits 4 s.data
    let cs ← expectChar '-' cs
    let cs ← takeDigits 2 cs
    let cs ← expectChar '-' cs
    let cs ← takeDigits 2 cs
    let cs ← expectChar 'T' cs
    let cs ← takeDigits 2 cs
    let cs ← expectChar ':' cs
    let cs ← takeDigits 2 cs
    let cs ← expectChar ':' cs
    let cs ← takeDigits 2 cs
    skipFraction cs : Option (List Char)) with
  | none => false
  | some cs => isZoneDesignator cs

/-! ### src/services/evaluation_service.py : the Analysis Orchestrator -/

def SPAM_LABELS : List String := ["Werbung / Spam", "Promotion"]

/-- `_detect_spam`. -/
def detect_spam (primary_label : String) (confidence : ℚ) : Bool :=
  (primary_label ∈ SPAM_LABELS) ∧ confidence > SPAM_CONFIDENCE_THRESHOLD

/-- The lookup table inside `_map_to_post_type`. -/
def POST_TYPE_TABLE : List (String × PostType) :=
  [("Factual Claim", .FactualClaim), ("Faktische Behauptung", .FactualClaim),
   ("Opinion", .Opinion), ("Meinungsäußerung", .Opinion),
   ("Question", .Question), ("Frage", .Question),
   ("Personal Update", .PersonalUpdate), ("Persönliche Mitteilung", .PersonalUpdate),
   ("Promotion", .Promotion), ("Werbung / Spam", .Promotion)]

/-- `_map_to_post_type`: `mapping.get(label, PostType.OPINION)`; the
`language` argument is accepted but unused, exactly as in the source. -/
def map_to_post_type (label : String) (language : String) : PostType :=
  lookupD POST_TYPE_TABLE label .Opinion

/-- The lookup table inside `_map_to_political_tendency`. -/
def POLITICAL_TABLE : List (String × PoliticalTendency) :=
  [("Left", .Left), ("Politisch Links", .Left),
   ("Center-Left", .CenterLeft), ("Politisch Mitte-Links", .CenterLeft),
   ("Center", .Center), ("Politisch Mitte", .Center),
   ("Center-Right", .CenterRight), ("Politisch Mitte-Rechts", .CenterRight),
   ("Right", .Right), ("Politisch Rechts", .Right),
   ("Neutral", .Neutral), ("Politisch Neutral", .Neutral)]

/-- `_map_to_political_tendency` (language argument unused, as in source). -/
def map_to_political_tendency (label : String) (language : String) :
    PoliticalTendency :=
  lookupD POLITICAL_TABLE label .Neutral

/-- The lookup table inside `_map_to_intent`. -/
def INTENT_TABLE : List (String × Intent) :=
  [("Informative", .Informative), ("Informativ", .Informative),
   ("Persuasive", .Persuasive), ("Überzeugend", .Persuasive),
   ("Satirical", .Satirical), ("Satirisch", .Satirical),
   ("Provocative", .Provocative), ("Provozierend", .Provocative),
   ("Commercial", .Commercial), ("Kommerziell", .Commercial),
   ("Entertaining", .Entertaining), ("Unterhaltend", .Entertaining)]

/-- `_map_to_intent` (language argument unused, as in source). -/
def map_to_intent (label : String) (language : String) : Intent :=
  lookupD INTENT_TABLE label .Informative

/-- The lookup table inside `_map_veracity_status`; the method takes no
language argument at all. -/
def VERACITY_TABLE : List (String × VeracityStatus) :=
  [("Factually Correct", .FactuallyCorrect), ("Untruth", .Untruth),
   ("Misleading", .Misleading), ("Unverifiable", .Unverifiable)]

/-- `_map_veracity_status`. -/
def map_veracity_status (status : String) : VeracityStatus :=
  lookupD VERACITY_TABLE status .Unverifiable

/-- `_should_perform_veracity_check`. -/
def should_perform_veracity_check (post_type : PostType) (is_spam : Bool)
    (flags : Flags) : Bool :=
  post_type = PostType.FactualClaim ∧ is_spam = false ∧
    flags.enable_veracity_check

/-- Python `round` to the nearest integer, ties to the even integer. -/
def roundHalfEven (q : ℚ) : ℤ :=
  let f := ⌊q⌋
  if q - f < 1/2 then f
  else if q - f > 1/2 then f + 1
  else if Even f then f else f + 1

/-- `round(v, 4)`. -/
def round4 (q : ℚ) : ℚ :=
  (roundHalfEven (q * 10000) : ℚ) / 10000

/-- Python `max(scores, key=scores.get)` on a non-empty dict: the first key
whose value is maximal, in insertion order. -/
def pyMaxKey (scores : List (String × ℚ)) : String :=
  match scores with
  | [] => ""
  | kv :: rest =>
      (rest.foldl (fun best p => if p.2 > best.2 then p else best) kv).1

/-- `_build_political_analysis`. -/
def build_political_analysis (scores : List (String × ℚ)) (language : String) :
    PoliticalTendencyAnalysis :=
  { primary := map_to_political_tendency (pyMaxKey scores) language,
    scores := scores.map (fun p => (p.1, round4 p.2)) }

/-- `_build_intent_list`. -/
def build_intent_list (scores : List (String × ℚ)) (language : String) :
    List Intent :=
  ((scores.filter (fun p => p.2 > INTENT_CONFIDENCE_THRESHOLD)).map
    (fun p => map_to_intent p.1 language))

/-- `_run_triage`. -/
def run_triage (env : GatewayEnv) (text : String) (language : String) :
    PostType × Bool :=
  let r := classify_post_type env text language
  (map_to_post_type r.1 language, detect_spam r.1 r.2.1)

/-- `_get_veracity_analysis`. -/
def get_veracity_analysis (env : GatewayEnv) (post_type : PostType)
    (is_spam : Bool) (post_text : String) (language : String) (flags : Flags) :
    Option VeracityAnalysis :=
  if should_perform_veracity_check post_type is_spam flags = false then none
  else
    let r := analyze_veracity env post_text language
    some { status := map_veracity_status r.1, justification := r.2.1,
           verification_method := r.2.2, sources := [] }

/-- `_get_nuance_analysis`. -/
def get_nuance_analysis (env : GatewayEnv) (is_spam : Bool)
    (post_text : String) (language : String) (flags : Flags) :
    Option NuanceAnalysis :=
  if is_spam ∨ flags.enable_nuance_analysis = false then none
  else
    some { political_tendency :=
             build_political_analysis
               (analyze_political_tendency env post_text language) language,
           detected_intents :=
             build_intent_list (analyze_intents env post_text language) language }

/-- `_build_analysis_response`. -/
def build_analysis_response (post_id : String) (language : String)
    (post_type : PostType) (is_spam : Bool)
    (veracity_analysis : Option VeracityAnalysis)
    (nuance_analysis : Option NuanceAnalysis)
    (processing_error : Option String) (now : UTCDateTime) : AnalysisResult :=
  { post_id := post_id,
    analysis_timestamp := analysisTimestamp now,
    language := language,
    post_analysis := { post_type := post_type, is_spam := is_spam },
    veracity_analysis := veracity_analysis,
    nuance_analysis := nuance_analysis,
    processing_error := processing_error }

/-- The `except` branch of `perform_full_analysis` (source lines 41-61): the
safe default record returned when a step inside the `try` raises.  The
Gateway operations absorb call-layer and parse-layer exceptions
internally, so no Gateway *exception* reaches this branch — but
type-confused reply *values* make the orchestrator's own steps raise, so
the branch is reachable (see `perform_full_analysis_full`).  Note that
this record carries a `nuance_analysis` unconditionally, whatever the
nuance feature flag says. -/
def failure_response (post_id : String) (language : String) (excText : String)
    (now : UTCDateTime) : AnalysisResult :=
  { post_id := post_id,
    analysis_timestamp := analysisTimestamp now,
    language := language,
    post_analysis := { post_type := .Opinion, is_spam := false },
    veracity_analysis := none,
    nuance_analysis := some
      { political_tendency := { primary := .Neutral, scores := [("Neutral", 1)] },
        detected_intents := [.Informative] },
    processing_error := some ("Analysis failed: " ++ excText) }

/-- `perform_full_analysis`, restricted to well-typed gateway values: on
that range every step of the `try` body completes (the Gateway operations
catch all exceptions internally and the score maps are never empty), so
the happy path runs to the end and `processing_error` stays `None`.  The
unrestricted semantics, whose `except` branch is reachable through
type-confused replies, is `perform_full_analysis_full` below. -/
def perform_full_analysis (env : GatewayEnv) (flags : Flags)
    (now : UTCDateTime) (post_id : String) (post_text : String)
    (language : String) : AnalysisResult :=
  let t := run_triage env post_text language
  let veracity := get_veracity_analysis env t.1 t.2 post_text language flags
  let nuance := get_nuance_analysis env t.2 post_text language flags
  build_analysis_response post_id language t.1 t.2 veracity nuance none now

/-! ### Full dynamic semantics

The typed definitions above are the pipeline's restriction to gateway
values in the well-typed range (string labels, numeric confidence,
numeric score entries), on which no step of the orchestrator's `try` body
raises.  The definitions below model the unrestricted dynamic semantics
of the same source lines: a reply may carry a non-string `primary_label`,
a non-numeric `confidence`, a non-object or string-valued `scores`, or
non-numeric score entries, and the resulting Python `TypeError` /
`AttributeError` / `ValueError` faults inside `_run_triage`,
`_get_veracity_analysis`, `_build_political_analysis` and
`_build_intent_list` reach the `except` handler of
`perform_full_analysis`, which returns the `failure_response` record.
JSON `true`/`false`/`null`/array atoms are not modelled (booleans behave
as the numbers 1/0 in every comparison of this code; `null` and arrays
fault exactly like the non-numeric values that are modelled). -/

/-- A runtime fault inside a pipeline step (`TypeError`, `AttributeError`
or `ValueError`); the orchestrator's handler catches them all alike. -/
inductive PyError where
  | typeError

/-- Lexicographic comparison of char lists by code point, Python's `<` on
strings. -/
def charListLt : List Char → List Char → Bool
  | _, [] => false
  | [], _ :: _ => true
  | a :: as, b :: bs => if a < b then true else if b < a then false else charListLt as bs

/-- Whether `sub` occurs inside `s`: Python's `sub in s` on strings. -/
def hasSubstr (s sub : List Char) : Bool :=
  match s with
  | [] => sub.isEmpty
  | _ :: t => sub.isPrefixOf s || hasSubstr t sub

/-- Python `a > b` between two reply values: numbers compare numerically,
strings lexicographically, and every other combination raises
`TypeError`. -/
def pyCompareGT : JValue → JValue → Except PyError Bool
  | .jnum a, .jnum b => .ok (decide (a > b))
  | .jstr a, .jstr b => .ok (charListLt b.data a.data)
  | _, _ => .error .typeError

/-- The `scores` fill loop of the parse methods over an arbitrary
`data.get("scores", {})` value: an object gets the missing labels
appended with `0.0`; a number faults at `label not in scores`
(`TypeError`, absorbed by the operation's own handler); a string is
Python's substring test, so the loop faults at the first label that is
not a substring, and only a string containing every label survives
unchanged. -/
def scoresFull (v : JValue) (labels : List String) : Except Unit JValue :=
  match v with
  | .jobj fs =>
      .ok (.jobj (fs ++ (labels.filter
        (fun l => ¬ fs.any (fun p => p.1 = l))).map (fun l => (l, .jnum 0))))
  | .jstr s =>
      if labels.all (fun l => hasSubstr s.data l.data) then .ok (.jstr s)
      else .error ()
  | .jnum _ => .error ()

/-- `_parse_classification_response` over the full reply space: the raw
`primary_label` and `confidence` values are handed through unconverted. -/
def parseClassificationFull (reply : Option JValue) (labels : List String) :
    Except Unit (JValue × JValue × JValue) :=
  match reply with
  | none =>
      .ok (.jstr labels.headI, .jnum (1/2),
           .jobj (labels.map (fun l => (l, .jnum (1 / (labels.length : ℚ))))))
  | some (.jobj data) =>
      match scoresFull (jgetD data "scores" (.jobj [])) labels with
      | .ok sc =>
          .ok (jgetD data "primary_label" (.jstr labels.headI),
               jgetD data "confidence" (.jnum (1/2)), sc)
      | .error e => .error e
  | some _ => .error ()

/-- `_parse_political_response` / `_parse_intent_response` over the full
reply space: the (possibly ill-typed) `scores` value after the fill
loop. -/
def parseScoresFull (reply : Option JValue) (labels : List String) :
    Except Unit JValue :=
  match reply with
  | none =>
      .ok (.jobj (labels.map (fun l => (l, .jnum (1 / (labels.length : ℚ))))))
  | some (.jobj data) => scoresFull (jgetD data "scores" (.jobj [])) labels
  | some _ => .error ()

/-- `_parse_veracity_response` over the full reply space. -/
def parseVeracityFull (reply : Option JValue) :
    Except Unit (JValue × JValue × JValue) :=
  match reply with
  | none => .ok (.jstr "Unverifiable", .jstr "Error in analysis",
                 .jstr "No method available")
  | some (.jobj data) =>
      .ok (jgetD data "status" (.jstr "Unverifiable"),
           jgetD data "justification" (.jstr "No analysis available"),
           jgetD data "verification_method" (.jstr "No method specified"))
  | some _ => .error ()

/-- `classify_post_type` over the full reply space; as in the typed view,
the operation's own handler absorbs every call-layer and parse-layer
fault into the default. -/
def classify_post_type_full (env : GatewayEnv) (text : String)
    (language : String) : JValue × JValue × JValue :=
  let labels := postTypeLabels language
  let dflt : JValue × JValue × JValue :=
    (.jstr labels.headI, .jnum (1 / (labels.length : ℚ)),
     .jobj (labels.map (fun l => (l, .jnum (1 / (labels.length : ℚ))))))
  if env.enabled = false then dflt
  else
    match env.classifyReply with
    | .raised => dflt
    | .returned r =>
        match parseClassificationFull r labels with
        | .ok res => res
        | .error _ => dflt

/-- `analyze_political_tendency` over the full reply space. -/
def analyze_political_tendency_full (env : GatewayEnv) (text : String)
    (language : String) : JValue :=
  let labels := politicalLabels language
  let dflt : JValue := .jobj (labels.map (fun l => (l, .jnum (1 / (labels.length : ℚ)))))
  if env.enabled = false then dflt
  else
    match env.politicalReply with
    | .raised => dflt
    | .returned r =>
        match parseScoresFull r labels with
        | .ok res => res
        | .error _ => dflt

/-- `analyze_intents` over the full reply space. -/
def analyze_intents_full (env : GatewayEnv) (text : String)
    (language : String) : JValue :=
  let labels := intentLabels language
  let dflt : JValue := .jobj (labels.map (fun l => (l, .jnum (1 / (labels.length : ℚ)))))
  if env.enabled = false then dflt
  else
    match env.intentsReply with
    | .raised => dflt
    | .returned r =>
        match parseScoresFull r labels with
        | .ok res => res
        | .error _ => dflt

/-- `analyze_veracity` over the full reply space. -/
def analyze_veracity_full (env : GatewayEnv) (claim : String)
    (language : String) : JValue × JValue × JValue :=
  let dflt : JValue × JValue × JValue :=
    (.jstr "Unverifiable", .jstr "Analysis not available",
     .jstr "Default method used")
  if env.enabled = false then dflt
  else
    match env.veracityReply with
    | .raised => dflt
    | .returned r =>
        match parseVeracityFull r with
        | .ok res => res
        | .error _ => dflt

/-- `_detect_spam` over raw values: `primary_label in SPAM_LABELS` never
faults (list membership is `==` comparison), but
`confidence > SPAM_CONFIDENCE_THRESHOLD` raises `TypeError` for every
non-numeric confidence — both locals are computed unconditionally. -/
def detect_spam_full (primary confidence : JValue) : Except PyError Bool :=
  let is_promotion := match primary with
    | .jstr s => decide (s ∈ SPAM_LABELS)
    | _ => false
  match confidence with
  | .jnum q => .ok (is_promotion && decide (q > SPAM_CONFIDENCE_THRESHOLD))
  | _ => .error .typeError

/-- `_map_to_post_type` over a raw label: a string is looked up, a number
is a hashable key missing from the table (default `Opinion`), and a dict
is unhashable, so `mapping.get` raises `TypeError`. -/
def map_to_post_type_full (primary : JValue) (language : String) :
    Except PyError PostType :=
  match primary with
  | .jstr s => .ok (map_to_post_type s language)
  | .jnum _ => .ok .Opinion
  | .jobj _ => .error .typeError

/-- `_run_triage` over the full reply space: `_detect_spam` runs before
`_map_to_post_type`, so a bad confidence faults first. -/
def run_triage_full (env : GatewayEnv) (text : String) (language : String) :
    Except PyError (PostType × Bool) :=
  let r := classify_post_type_full env text language
  match detect_spam_full r.1 r.2.1 with
  | .error e => .error e
  | .ok is_spam =>
      match map_to_post_type_full r.1 language with
      | .error e => .error e
      | .ok post_type => .ok (post_type, is_spam)

/-- `_map_veracity_status` over a raw status value (dict keys are
unhashable). -/
def map_veracity_status_full (status : JValue) : Except PyError VeracityStatus :=
  match status with
  | .jstr s => .ok (map_veracity_status s)
  | .jnum _ => .ok .Unverifiable
  | .jobj _ => .error .typeError

/-- `_get_veracity_analysis` over the full reply space.  The
justification / verification_method fields are rendered with
`JValue.asLabel`; the `VeracityAnalysis` record type lives in the
`api_models` module outside the analysed sources, and no property here
depends on those two fields for non-string replies. -/
def get_veracity_analysis_full (env : GatewayEnv) (post_type : PostType)
    (is_spam : Bool) (post_text : String) (language : String) (flags : Flags) :
    Except PyError (Option VeracityAnalysis) :=
  if should_perform_veracity_check post_type is_spam flags = false then .ok none
  else
    let r := analyze_veracity_full env post_text language
    match map_veracity_status_full r.1 with
    | .error e => .error e
    | .ok st =>
        .ok (some { status := st, justification := r.2.1.asLabel,
                    verification_method := r.2.2.asLabel, sources := [] })

/-- `max(scores, key=scores.get)` over raw values: iterates the items,
comparing each value against the current best with Python `>`; the first
ill-typed comparison raises. -/
def pyMaxKeyFullAux (best : String × JValue) :
    List (String × JValue) → Except PyError String
  | [] => .ok best.1
  | p :: rest =>
      match pyCompareGT p.2 best.2 with
      | .error e => .error e
      | .ok true => pyMaxKeyFullAux p rest
      | .ok false => pyMaxKeyFullAux best rest

/-- `max` of a dict by value; empty dicts raise `ValueError`. -/
def pyMaxKeyFull : List (String × JValue) → Except PyError String
  | [] => .error .typeError
  | p :: rest => pyMaxKeyFullAux p rest

/-- The `{k: round(v, 4) for k, v in scores.items()}` comprehension:
`round` raises `TypeError` on any non-numeric value. -/
def roundScoresFull : List (String × JValue) → Except PyError (List (String × ℚ))
  | [] => .ok []
  | (k, .jnum q) :: rest =>
      match roundScoresFull rest with
      | .ok rs => .ok ((k, round4 q) :: rs)
      | .error e => .error e
  | (_, _) :: _ => .error .typeError

/-- `_build_political_analysis` over a raw scores value: a non-dict has no
`.get` attribute (`AttributeError` in the `max` call). -/
def build_political_analysis_full (scores : JValue) (language : String) :
    Except PyError PoliticalTendencyAnalysis :=
  match scores with
  | .jobj fs =>
      match pyMaxKeyFull fs with
      | .error e => .error e
      | .ok primary =>
          match roundScoresFull fs with
          | .error e => .error e
          | .ok rs => .ok { primary := map_to_political_tendency primary language,
                            scores := rs }
  | _ => .error .typeError

/-- The `[intent for intent, score in scores.items() if score > threshold]`
comprehension: `score > threshold` raises `TypeError` at the first
non-numeric value. -/
def intentFilterItems : List (String × JValue) → Except PyError (List String)
  | [] => .ok []
  | (k, .jnum q) :: rest =>
      match intentFilterItems rest with
      | .ok ds => .ok (if q > INTENT_CONFIDENCE_THRESHOLD then k :: ds else ds)
      | .error e => .error e
  | (_, _) :: _ => .error .typeError

/-- `_build_intent_list` over a raw scores value: a non-dict has no
`.items()` (`AttributeError`). -/
def build_intent_list_full (scores : JValue) (language : String) :
    Except PyError (List Intent) :=
  match scores with
  | .jobj fs =>
      match intentFilterItems fs with
      | .ok detected => .ok (detected.map (fun l => map_to_intent l language))
      | .error e => .error e
  | _ => .error .typeError

/-- `_get_nuance_analysis` over the full reply space. -/
def get_nuance_analysis_full (env : GatewayEnv) (is_spam : Bool)
    (post_text : String) (language : String) (flags : Flags) :
    Except PyError (Option NuanceAnalysis) :=
  if is_spam ∨ flags.enable_nuance_analysis = false then .ok none
  else
    match build_political_analysis_full
        (analyze_political_tendency_full env post_text language) language with
    | .error e => .error e
    | .ok pol =>
        match build_intent_list_full
            (analyze_intents_full env post_text language) language with
        | .error e => .error e
        | .ok ints =>
            .ok (some { political_tendency := pol, detected_intents := ints })

/-- The message text of a caught fault, as interpolated into
`f"Analysis failed: {str(e)}"`; the exact exception string is immaterial
to every property, only its presence. -/
def pyErrText : PyError → String
  | .typeError => "TypeError"

/-- `perform_full_analysis` over the full reply space: any fault raised by
a step of the `try` body lands in the `except` branch, which returns the
`failure_response` record — this branch is reachable, e.g. through a
reply whose `confidence` is a string. -/
def perform_full_analysis_full (env : GatewayEnv) (flags : Flags)
    (now : UTCDateTime) (post_id : String) (post_text : String)
    (language : String) : AnalysisResult :=
  match run_triage_full env post_text language with
  | .error e => failure_response post_id language (pyErrText e) now
  | .ok t =>
      match get_veracity_analysis_full env t.1 t.2 post_text language flags with
      | .error e => failure_response post_id language (pyErrText e) now
      | .ok v =>
          match get_nuance_analysis_full env t.2 post_text language flags with
          | .error e => failure_response post_id language (pyErrText e) now
          | .ok n => build_analysis_response post_id language t.1 t.2 v n none now

/-! ### Theorems -/

lemma postTypeLabels_en : postTypeLabels "en" = EN_POST_TYPES := rfl

lemma politicalLabels_en : politicalLabels "en" = EN_POLITICAL_LABELS := rfl

lemma intentLabels_en : intentLabels "en" = EN_INTENT_LABELS := rfl

lemma fillMissing_nil (labels : List String) :
    fillMissing [] labels = labels.map (fun l => (l, 0)) := by
  simp [fillMissing]

lemma round4_zero : round4 0 = 0 := by
  norm_num [round4, roundHalfEven]

lemma build_political_analysis_zeros_en :
    build_political_analysis (EN_POLITICAL_LABELS.map (fun l => (l, (0 : ℚ))))
        "en" =
      ⟨.Left, EN_POLITICAL_LABELS.map (fun l => (l, (0 : ℚ)))⟩ := by
  simp [build_political_analysis, pyMaxKey, EN_POLITICAL_LABELS,
    map_to_political_tendency, POLITICAL_TABLE, lookupD, round4_zero]

/-- C6: if the Gateway is not configured with valid credentials, then for
every input text and every language, each score-bearing operation returns,
independently of every call outcome (no network call is consulted), the
uniform `1/|L|` score for every label of the active label set, summing to
1; and `analyze_veracity` returns `"Unverifiable"` with the fixed default
strings. -/
theorem C6_unconfigured_defaults
    (a b c e : CallOutcome) (text language : String) :
    classify_post_type ⟨false, a, b, c, e⟩ text language =
      ((postTypeLabels language).headI, 1 / ((postTypeLabels language).length : ℚ),
       (postTypeLabels language).map
         (fun l => (l, 1 / ((postTypeLabels language).length : ℚ)))) ∧
    (((classify_post_type ⟨false, a, b, c, e⟩ text language).2.2.map
        Prod.snd).sum = 1) ∧
    analyze_political_tendency ⟨false, a, b, c, e⟩ text language =
      (politicalLabels language).map
        (fun l => (l, 1 / ((politicalLabels language).length : ℚ))) ∧
    (((analyze_political_tendency ⟨false, a, b, c, e⟩ text language).map
        Prod.snd).sum = 1) ∧
    analyze_intents ⟨false, a, b, c, e⟩ text language =
      (intentLabels language).map
        (fun l => (l, 1 / ((intentLabels language).length : ℚ))) ∧
    (((analyze_intents ⟨false, a, b, c, e⟩ text language).map Prod.snd).sum = 1) ∧
    analyze_veracity ⟨false, a, b, c, e⟩ text language =
      ("Unverifiable", "Analysis not available", "Default method used") := by
  by_cases h : language = "de" <;>
    simp [classify_post_type, analyze_political_tendency, analyze_intents,
      analyze_veracity, getDefaultClassification, getDefaultPoliticalAnalysis,
      getDefaultIntentAnalysis, getDefaultVeracityAnalysis, postTypeLabels,
      politicalLabels, intentLabels, EN_POST_TYPES, DE_POST_TYPES,
      EN_POLITICAL_LABELS, DE_POLITICAL_LABELS, EN_INTENT_LABELS,
      DE_INTENT_LABELS, h] <;>
    norm_num

/-- C10: with the Gateway unconfigured and language `"en"`,
`classify_post_type` returns primary label `"Factual Claim"` with
confidence `1/5`, so the pipeline reports `post_type = FactualClaim`,
`is_spam = false`, and — when the veracity flag is on — a present
`veracity_analysis` with status `Unverifiable`; the credential-less
default is not `Opinion`. -/
theorem C10_unconfigured_en_default_is_factual_claim
    (a b c e : CallOutcome) (flags : Flags) (now : UTCDateTime)
    (pid text : String) (hv : flags.enable_veracity_check = true) :
    classify_post_type ⟨false, a, b, c, e⟩ text "en" =
      ("Factual Claim", 1/5, EN_POST_TYPES.map (fun l => (l, (1 : ℚ)/5))) ∧
    (perform_full_analysis ⟨false, a, b, c, e⟩ flags now pid text
        "en").post_analysis.post_type = PostType.FactualClaim ∧
    (perform_full_analysis ⟨false, a, b, c, e⟩ flags now pid text
        "en").post_analysis.is_spam = false ∧
    (perform_full_analysis ⟨false, a, b, c, e⟩ flags now pid text
        "en").veracity_analysis =
      some ⟨.Unverifiable, "Analysis not available", "Default method used", []⟩ ∧
    PostType.FactualClaim ≠ PostType.Opinion := by
  refine ⟨by simp [classify_post_type, getDefaultClassification,
    postTypeLabels, EN_POST_TYPES], ?_, ?_, ?_, by decide⟩ <;>
    simp [perform_full_analysis, run_triage, build_analysis_response,
      get_veracity_analysis, should_perform_veracity_check,
      classify_post_type, getDefaultClassification, postTypeLabels,
      EN_POST_TYPES, map_to_post_type, POST_TYPE_TABLE, lookupD, detect_spam,
      SPAM_LABELS, SPAM_CONFIDENCE_THRESHOLD, analyze_veracity,
      getDefaultVeracityAnalysis, map_veracity_status, VERACITY_TABLE, hv]

/-- C10 witness. -/
theorem C10_witness :
    (⟨true, true⟩ : Flags).enable_veracity_check = true ∧
    (perform_full_analysis ⟨false, .raised, .raised, .raised, .raised⟩
        ⟨true, true⟩ ⟨2025, 6, 15, 12, 30, 45, 0⟩ "p" "t"
        "en").post_analysis.post_type = PostType.FactualClaim :=
  ⟨rfl, (C10_unconfigured_en_default_is_factual_claim .raised .raised .raised
      .raised ⟨true, true⟩ ⟨2025, 6, 15, 12, 30, 45, 0⟩ "p" "t" rfl).2.1⟩

/-- C1 counterexample: when every attempt of `_make_api_call` fails, the
retry loop does raise, but the Gateway operation's own `except Exception`
handler absorbs it, so `perform_full_analysis` returns a result with
`processing_error = None` and `post_type = FactualClaim` (for `"en"`),
not the claimed error record with `post_type = Opinion` and a non-empty
`processing_error`. -/
theorem C1_counterexample :
    makeApiCall (fun _ => .error ()) 3 = .error () ∧
    (perform_full_analysis ⟨true, .raised, .raised, .raised, .raised⟩
        ⟨true, true⟩ ⟨2025, 1, 2, 3, 4, 5, 0⟩ "p1" "some text"
        "en").processing_error = none ∧
    (perform_full_analysis ⟨true, .raised, .raised, .raised, .raised⟩
        ⟨true, true⟩ ⟨2025, 1, 2, 3, 4, 5, 0⟩ "p1" "some text"
        "en").post_analysis.post_type = PostType.FactualClaim ∧
    PostType.FactualClaim ≠ PostType.Opinion := by
  refine ⟨rfl, rfl, ?_, by decide⟩
  rfl

/-- C1 amended: after the final attempt fails, `_make_api_call` raises, but
each Gateway operation catches the exception and returns its deterministic
default, so nothing propagates to the orchestrator: the pipeline output
with every call raising equals the unconfigured pipeline's output, and
`processing_error` stays `None`. -/
theorem C1_call_layer_failure_absorbed
    (flags : Flags) (now : UTCDateTime) (pid text lang : String) :
    makeApiCall (fun _ => .error ()) 3 = .error () ∧
    classify_post_type ⟨true, .raised, .raised, .raised, .raised⟩ text lang =
      getDefaultClassification lang ∧
    perform_full_analysis ⟨true, .raised, .raised, .raised, .raised⟩ flags now
        pid text lang =
      perform_full_analysis ⟨false, .raised, .raised, .raised, .raised⟩ flags
        now pid text lang ∧
    (perform_full_analysis ⟨true, .raised, .raised, .raised, .raised⟩ flags now
        pid text lang).processing_error = none :=
  ⟨rfl, rfl, rfl, rfl⟩

/-- C2 counterexample: a parse-level failure is indeed not propagated, but
the value returned is not the unconfigured default: malformed JSON gives
classification confidence `0.5` where the unconfigured default confidence
is `1/5`; a JSON object missing every expected key gives all-zero scores;
and the veracity parse fallback strings differ from the unconfigured
default strings. -/
theorem C2_counterexample :
    classify_post_type ⟨true, .returned none, .raised, .raised, .raised⟩ "t"
        "en" =
      ("Factual Claim", 1/2, EN_POST_TYPES.map (fun l => (l, (1 : ℚ)/5))) ∧
    classify_post_type ⟨false, .raised, .raised, .raised, .raised⟩ "t" "en" =
      ("Factual Claim", 1/5, EN_POST_TYPES.map (fun l => (l, (1 : ℚ)/5))) ∧
    ((1 : ℚ)/2 ≠ 1/5) ∧
    classify_post_type
        ⟨true, .returned (some (.jobj [])), .raised, .raised, .raised⟩ "t"
        "en" =
      ("Factual Claim", 1/2, EN_POST_TYPES.map (fun l => (l, (0 : ℚ)))) ∧
    analyze_veracity ⟨true, .raised, .raised, .raised, .returned none⟩ "t"
        "en" =
      ("Unverifiable", "Error in analysis", "No method available") ∧
    getDefaultVeracityAnalysis =
      ("Unverifiable", "Analysis not available", "Default method used") ∧
    ("Error in analysis" ≠ "Analysis not available") := by
  refine ⟨?_, ?_, by norm_num, ?_, rfl, rfl, by decide⟩ <;> rfl

/-- C2 amended: a parse-level failure never propagates; the operation
returns a value, but not always the unconfigured default: malformed JSON
yields `(labels[0], 0.5, uniform)` for classification and the uniform map
for political/intent analysis, while a JSON object missing every expected
key yields `(labels[0], 0.5, all-zero scores)` (all-zero maps for
political/intent); veracity parse failure yields `"Unverifiable"` with the
parse-specific fixed strings. -/
theorem C2_parse_failure_never_raises (text lang : String) :
    classify_post_type
        ⟨true, .returned none, .returned none, .returned none, .returned none⟩
        text lang =
      ((postTypeLabels lang).headI, 1/2,
       (postTypeLabels lang).map
         (fun l => (l, 1 / ((postTypeLabels lang).length : ℚ)))) ∧
    analyze_political_tendency
        ⟨true, .returned none, .returned none, .returned none, .returned none⟩
        text lang =
      (politicalLabels lang).map
        (fun l => (l, 1 / ((politicalLabels lang).length : ℚ))) ∧
    analyze_intents
        ⟨true, .returned none, .returned none, .returned none, .returned none⟩
        text lang =
      (intentLabels lang).map
        (fun l => (l, 1 / ((intentLabels lang).length : ℚ))) ∧
    analyze_veracity
        ⟨true, .returned none, .returned none, .returned none, .returned none⟩
        text lang =
      ("Unverifiable", "Error in analysis", "No method available") ∧
    classify_post_type
        ⟨true, .returned (some (.jobj [])), .returned (some (.jobj [])),
         .returned (some (.jobj [])), .returned (some (.jobj []))⟩ text lang =
      ((postTypeLabels lang).headI, 1/2,
       (postTypeLabels lang).map (fun l => (l, (0 : ℚ)))) ∧
    analyze_political_tendency
        ⟨true, .returned (some (.jobj [])), .returned (some (.jobj [])),
         .returned (some (.jobj [])), .returned (some (.jobj []))⟩ text lang =
      (politicalLabels lang).map (fun l => (l, (0 : ℚ))) ∧
    analyze_intents
        ⟨true, .returned (some (.jobj [])), .returned (some (.jobj [])),
         .returned (some (.jobj [])), .returned (some (.jobj []))⟩ text lang =
      (intentLabels lang).map (fun l => (l, (0 : ℚ))) := by
  by_cases h : lang = "de" <;>
    simp [classify_post_type, analyze_political_tendency, analyze_intents,
      analyze_veracity, parseClassificationResponse, parsePoliticalResponse,
      parseIntentResponse, parseVeracityResponse, jgetD, lookupD,
      JValue.asLabel,
      JValue.asNum, JValue.numEntries, fillMissing, postTypeLabels,
      politicalLabels, intentLabels, EN_POST_TYPES, DE_POST_TYPES,
      EN_POLITICAL_LABELS, DE_POLITICAL_LABELS, EN_INTENT_LABELS,
      DE_INTENT_LABELS, h]

lemma isSome_ite_eq_false {α : Type} (c : Bool) (x : α) :
    (if c = false then none else some x).isSome = c := by
  cases c <;> simp

/-- C3 counterexample: with request language `"en"`, a classification whose
primary label is the German promotion label `"Werbung / Spam"` (confidence
0.9) still sets `is_spam = true`, although that label is not the Promotion
label of the active language: `_detect_spam` checks `SPAM_LABELS`, which
holds both languages' promotion labels, and ignores the request language. -/
theorem C3_counterexample :
    (perform_full_analysis
        ⟨true,
         .returned (some (.jobj [("primary_label", .jstr "Werbung / Spam"),
           ("confidence", .jnum (9/10)), ("scores", .jobj [])])),
         .raised, .raised, .raised⟩
        ⟨true, true⟩ ⟨2025, 1, 1, 0, 0, 0, 0⟩ "p" "t"
        "en").post_analysis.is_spam = true ∧
    ("Werbung / Spam" ∈ DE_POST_TYPES) ∧ ("Werbung / Spam" ∉ EN_POST_TYPES) := by
  refine ⟨?_, by decide, by decide⟩
  have hc : classify_post_type
      ⟨true,
       .returned (some (.jobj [("primary_label", .jstr "Werbung / Spam"),
         ("confidence", .jnum (9/10)), ("scores", .jobj [])])),
       .raised, .raised, .raised⟩ "t" "en" =
      ("Werbung / Spam", 9/10, fillMissing [] EN_POST_TYPES) := by
    simp [classify_post_type, parseClassificationResponse, postTypeLabels_en,
      jgetD, lookupD, JValue.asLabel, JValue.asNum, JValue.numEntries]
  norm_num [perform_full_analysis, run_triage, build_analysis_response, hc,
    detect_spam, SPAM_LABELS, SPAM_CONFIDENCE_THRESHOLD]

/-- C3 amended: `is_spam` is true iff the primary label is one of the two
promotion labels of `SPAM_LABELS` — `"Werbung / Spam"` or `"Promotion"`,
regardless of the request language — and confidence is strictly above 0.7;
confidence exactly 0.7 yields `is_spam = false`. -/
theorem C3_spam_rule :
    (∀ (env : GatewayEnv) (flags : Flags) (now : UTCDateTime)
        (pid text lang : String),
      (perform_full_analysis env flags now pid text
            lang).post_analysis.is_spam = true ↔
        (((classify_post_type env text lang).1 = "Werbung / Spam" ∨
          (classify_post_type env text lang).1 = "Promotion") ∧
         (classify_post_type env text lang).2.1 > 7/10)) ∧
    (∀ label : String, detect_spam label (7/10) = false) := by
  constructor
  · intro env flags now pid text lang
    simp [perform_full_analysis, run_triage, build_analysis_response,
      detect_spam, SPAM_LABELS, SPAM_CONFIDENCE_THRESHOLD]
  · intro label
    simp [detect_spam, SPAM_CONFIDENCE_THRESHOLD]

/-- C5: the veracity analysis is present in the result exactly when
`post_type = FactualClaim`, `is_spam = false` and the veracity feature
flag is on; in every other of the eight flag/type/spam combinations it is
absent. -/
theorem C5_veracity_gate (env : GatewayEnv) (flags : Flags)
    (now : UTCDateTime) (pid text lang : String) :
    (perform_full_analysis env flags now pid text
        lang).veracity_analysis.isSome = true ↔
      ((perform_full_analysis env flags now pid text
          lang).post_analysis.post_type = PostType.FactualClaim ∧
       (perform_full_analysis env flags now pid text
          lang).post_analysis.is_spam = false ∧
       flags.enable_veracity_check = true) := by
  simp [perform_full_analysis, get_veracity_analysis, build_analysis_response,
    isSome_ite_eq_false, should_perform_veracity_check]

lemma scoresFull_emptyobj (labels : List String) :
    scoresFull (.jobj []) labels =
      .ok (.jobj (labels.map (fun l => (l, .jnum 0)))) := by
  simp [scoresFull]

lemma intentFilterItems_ok (fs : List (String × JValue)) (l : List String)
    (h : intentFilterItems fs = .ok l) :
    l = ((fs.filterMap (fun p =>
          match p.2 with
          | .jnum q => some (p.1, q)
          | _ => none)).filter
        (fun p => p.2 > INTENT_CONFIDENCE_THRESHOLD)).map Prod.fst := by
  induction fs generalizing l with
  | nil =>
      simp [intentFilterItems] at h
      simp [h.symm]
  | cons p rest ih =>
      rcases p with ⟨k, v⟩
      cases v with
      | jnum q =>
          simp only [intentFilterItems] at h
          cases hr : intentFilterItems rest with
          | error e => rw [hr] at h; exact absurd h (by simp)
          | ok ds =>
              rw [hr] at h
              simp only [Except.ok.injEq] at h
              rw [← h, ih ds hr]
              by_cases hq : q > INTENT_CONFIDENCE_THRESHOLD <;>
                simp [hq, List.filterMap_cons, List.filter_cons]
      | jstr s => simp [intentFilterItems] at h
      | jobj fs2 => simp [intentFilterItems] at h

lemma build_intent_list_full_ok (scores : JValue) (lang : String)
    (l : List Intent) (h : build_intent_list_full scores lang = .ok l) :
    l = (scores.numEntries.filter
        (fun p => p.2 > INTENT_CONFIDENCE_THRESHOLD)).map
      (fun p => map_to_intent p.1 lang) := by
  cases scores with
  | jobj fs =>
      simp only [build_intent_list_full] at h
      cases hr : intentFilterItems fs with
      | error e => rw [hr] at h; exact absurd h (by simp)
      | ok ds =>
          rw [hr] at h
          simp only [Except.ok.injEq] at h
          rw [← h, intentFilterItems_ok fs ds hr]
          simp [JValue.numEntries, List.map_map]
  | jstr s => simp [build_intent_list_full] at h
  | jnum q => simp [build_intent_list_full] at h

lemma get_nuance_full_ok_isSome (env : GatewayEnv) (s : Bool)
    (text lang : String) (flags : Flags) (n : Option NuanceAnalysis)
    (h : get_nuance_analysis_full env s text lang flags = .ok n) :
    n.isSome = (!s && flags.enable_nuance_analysis) := by
  unfold get_nuance_analysis_full at h
  by_cases hc : (s = true ∨ flags.enable_nuance_analysis = false)
  · rw [if_pos hc] at h
    simp only [Except.ok.injEq] at h
    rcases hc with hc | hc <;> simp [← h, hc]
  · rw [if_neg hc] at h
    push_neg at hc
    cases hp : build_political_analysis_full
        (analyze_political_tendency_full env text lang) lang with
    | error e => rw [hp] at h; exact absurd h (by simp)
    | ok pol =>
        rw [hp] at h
        cases hi : build_intent_list_full
            (analyze_intents_full env text lang) lang with
        | error e => rw [hi] at h; exact absurd h (by simp)
        | ok ints =>
            rw [hi] at h
            simp only [Except.ok.injEq] at h
            simp [← h, Bool.not_eq_true] at hc ⊢
            simp [hc.1, hc.2]

lemma get_nuance_full_ok_some (env : GatewayEnv) (s : Bool)
    (text lang : String) (flags : Flags) (nn : NuanceAnalysis)
    (h : get_nuance_analysis_full env s text lang flags = .ok (some nn)) :
    nn.detected_intents =
      ((analyze_intents_full env text lang).numEntries.filter
        (fun p => p.2 > INTENT_CONFIDENCE_THRESHOLD)).map
      (fun p => map_to_intent p.1 lang) := by
  unfold get_nuance_analysis_full at h
  split at h
  · exact absurd h (by simp)
  · cases hp : build_political_analysis_full
        (analyze_political_tendency_full env text lang) lang with
    | error e => rw [hp] at h; exact absurd h (by simp)
    | ok pol =>
        rw [hp] at h
        cases hi : build_intent_list_full
            (analyze_intents_full env text lang) lang with
        | error e => rw [hi] at h; exact absurd h (by simp)
        | ok ints =>
            rw [hi] at h
            simp only [Except.ok.injEq, Option.some.injEq] at h
            rw [← h]
            exact build_intent_list_full_ok _ _ _ hi

/-- C4 counterexample: a well-formed JSON reply whose `confidence` is the
string `"high"` raises `TypeError` in `_detect_spam`, lands in
`perform_full_analysis`'s `except` branch, and that branch's safe-default
record carries `nuance_analysis` even though the nuance feature flag is
off and `is_spam` is false — falsifying the claimed biconditional. -/
theorem C4_counterexample :
    (perform_full_analysis_full
        ⟨true, .returned (some (.jobj [("primary_label", .jstr "Opinion"),
          ("confidence", .jstr "high")])), .raised, .raised, .raised⟩
        ⟨true, false⟩ ⟨2025, 1, 1, 0, 0, 0, 0⟩ "p" "t"
        "en").nuance_analysis.isSome = true ∧
    (perform_full_analysis_full
        ⟨true, .returned (some (.jobj [("primary_label", .jstr "Opinion"),
          ("confidence", .jstr "high")])), .raised, .raised, .raised⟩
        ⟨true, false⟩ ⟨2025, 1, 1, 0, 0, 0, 0⟩ "p" "t"
        "en").post_analysis.is_spam = false ∧
    (⟨true, false⟩ : Flags).enable_nuance_analysis = false ∧
    (perform_full_analysis_full
        ⟨true, .returned (some (.jobj [("primary_label", .jstr "Opinion"),
          ("confidence", .jstr "high")])), .raised, .raised, .raised⟩
        ⟨true, false⟩ ⟨2025, 1, 1, 0, 0, 0, 0⟩ "p" "t"
        "en").processing_error ≠ none := by
  have ht : run_triage_full
      ⟨true, .returned (some (.jobj [("primary_label", .jstr "Opinion"),
        ("confidence", .jstr "high")])), .raised, .raised, .raised⟩ "t" "en" =
      .error .typeError := by
    simp [run_triage_full, classify_post_type_full, parseClassificationFull,
      scoresFull, jgetD, lookupD, detect_spam_full]
  refine ⟨?_, ?_, rfl, ?_⟩ <;>
    simp [perform_full_analysis_full, ht, failure_response]

/-- C4 amended: `nuance_analysis` is present iff the orchestrator's
failure path was taken (`processing_error` present — the safe-default
record always carries a `nuance_analysis`, whatever the nuance flag says)
OR `is_spam` is false and the nuance flag is on.  On the normal path
(`processing_error` absent), `detected_intents` contains exactly the
numeric score entries strictly greater than `3/10`, each mapped to the
Intent enum — a score of exactly `3/10` is excluded, and zero detected
intents is a reachable outcome. -/
theorem C4_nuance_gate_full :
    (∀ (env : GatewayEnv) (flags : Flags) (now : UTCDateTime)
        (pid text lang : String),
      ((perform_full_analysis_full env flags now pid text
            lang).nuance_analysis.isSome = true ↔
        ((perform_full_analysis_full env flags now pid text
            lang).processing_error ≠ none ∨
         ((perform_full_analysis_full env flags now pid text
            lang).post_analysis.is_spam = false ∧
          flags.enable_nuance_analysis = true))) ∧
      (∀ n, (perform_full_analysis_full env flags now pid text
            lang).processing_error = none →
        (perform_full_analysis_full env flags now pid text
            lang).nuance_analysis = some n →
        n.detected_intents =
          (((analyze_intents_full env text lang).numEntries.filter
            (fun p => p.2 > (3 : ℚ)/10)).map
            (fun p => map_to_intent p.1 lang)))) ∧
    build_intent_list_full (.jobj [("Informative", .jnum (3/10))]) "en" =
      .ok [] ∧
    (perform_full_analysis_full
        ⟨true, .returned (some (.jobj [])), .returned (some (.jobj [])),
         .returned (some (.jobj [])), .returned (some (.jobj []))⟩
        ⟨true, true⟩ ⟨2025, 1, 1, 0, 0, 0, 0⟩ "p" "t"
        "en").processing_error = none ∧
    (perform_full_analysis_full
        ⟨true, .returned (some (.jobj [])), .returned (some (.jobj [])),
         .returned (some (.jobj [])), .returned (some (.jobj []))⟩
        ⟨true, true⟩ ⟨2025, 1, 1, 0, 0, 0, 0⟩ "p" "t"
        "en").nuance_analysis =
      some ⟨⟨.Left, EN_POLITICAL_LABELS.map (fun l => (l, (0 : ℚ)))⟩, []⟩ := by
  have hc : classify_post_type_full
      ⟨true, .returned (some (.jobj [])), .returned (some (.jobj [])),
       .returned (some (.jobj [])), .returned (some (.jobj []))⟩ "t" "en" =
      (.jstr "Factual Claim", .jnum (1/2),
       .jobj (EN_POST_TYPES.map (fun l => (l, .jnum 0)))) := by
    simp [classify_post_type_full, parseClassificationFull, scoresFull_emptyobj,
      jgetD, lookupD, postTypeLabels_en, EN_POST_TYPES]
  have ht2 : run_triage_full
      ⟨true, .returned (some (.jobj [])), .returned (some (.jobj [])),
       .returned (some (.jobj [])), .returned (some (.jobj []))⟩ "t" "en" =
      .ok (.FactualClaim, false) := by
    simp [run_triage_full, hc, detect_spam_full, SPAM_LABELS,
      map_to_post_type_full, map_to_post_type, POST_TYPE_TABLE, lookupD]
  have hv2 : get_veracity_analysis_full
      ⟨true, .returned (some (.jobj [])), .returned (some (.jobj [])),
       .returned (some (.jobj [])), .returned (some (.jobj []))⟩
      .FactualClaim false "t" "en" ⟨true, true⟩ =
      .ok (some ⟨.Unverifiable, "No analysis available",
                 "No method specified", []⟩) := by
    simp [get_veracity_analysis_full, should_perform_veracity_check,
      analyze_veracity_full, parseVeracityFull, jgetD, lookupD,
      map_veracity_status_full, map_veracity_status, VERACITY_TABLE,
      JValue.asLabel]
  have hp2 : analyze_political_tendency_full
      ⟨true, .returned (some (.jobj [])), .returned (some (.jobj [])),
       .returned (some (.jobj [])), .returned (some (.jobj []))⟩ "t" "en" =
      .jobj (EN_POLITICAL_LABELS.map (fun l => (l, .jnum 0))) := by
    simp [analyze_political_tendency_full, parseScoresFull, jgetD, lookupD,
      scoresFull_emptyobj, politicalLabels_en]
  have hi2 : analyze_intents_full
      ⟨true, .returned (some (.jobj [])), .returned (some (.jobj [])),
       .returned (some (.jobj [])), .returned (some (.jobj []))⟩ "t" "en" =
      .jobj (EN_INTENT_LABELS.map (fun l => (l, .jnum 0))) := by
    simp [analyze_intents_full, parseScoresFull, jgetD, lookupD,
      scoresFull_emptyobj, intentLabels_en]
  have hn2 : get_nuance_analysis_full
      ⟨true, .returned (some (.jobj [])), .returned (some (.jobj [])),
       .returned (some (.jobj [])), .returned (some (.jobj []))⟩
      false "t" "en" ⟨true, true⟩ =
      .ok (some ⟨⟨.Left, EN_POLITICAL_LABELS.map (fun l => (l, (0 : ℚ)))⟩,
                 []⟩) := by
    norm_num [get_nuance_analysis_full, hp2, hi2,
      build_political_analysis_full, EN_POLITICAL_LABELS, pyMaxKeyFull,
      pyMaxKeyFullAux, pyCompareGT, roundScoresFull, round4_zero,
      map_to_political_tendency, POLITICAL_TABLE, lookupD,
      build_intent_list_full, EN_INTENT_LABELS, intentFilterItems,
      INTENT_CONFIDENCE_THRESHOLD]
  refine ⟨?_, by norm_num [build_intent_list_full, intentFilterItems,
      INTENT_CONFIDENCE_THRESHOLD], ?_, ?_⟩
  case refine_2 =>
    simp [perform_full_analysis_full, ht2, hv2, hn2, build_analysis_response]
  case refine_3 =>
    simp [perform_full_analysis_full, ht2, hv2, hn2, build_analysis_response]
  intro env flags now pid text lang
  cases ht : run_triage_full env text lang with
  | error e =>
      constructor
      · simp [perform_full_analysis_full, ht, failure_response]
      · intro n hne
        simp [perform_full_analysis_full, ht, failure_response] at hne
  | ok t =>
      cases hv : get_veracity_analysis_full env t.1 t.2 text lang flags with
      | error e =>
          constructor
          · simp [perform_full_analysis_full, ht, hv, failure_response]
          · intro n hne
            simp [perform_full_analysis_full, ht, hv, failure_response] at hne
      | ok v =>
          cases hn : get_nuance_analysis_full env t.2 text lang flags with
          | error e =>
              constructor
              · simp [perform_full_analysis_full, ht, hv, hn, failure_response]
              · intro n hne
                simp [perform_full_analysis_full, ht, hv, hn,
                  failure_response] at hne
          | ok n =>
              constructor
              · simp only [perform_full_analysis_full, ht, hv, hn,
                  build_analysis_response]
                rw [get_nuance_full_ok_isSome env t.2 text lang flags n hn]
                simp [Bool.and_eq_true, Bool.not_eq_true']
              · intro nn hne hsome
                simp only [perform_full_analysis_full, ht, hv, hn,
                  build_analysis_response] at hsome
                have := get_nuance_full_ok_some env t.2 text lang flags nn
                  (by rw [hn, hsome])
                rw [this]
                norm_num [INTENT_CONFIDENCE_THRESHOLD]

/-- C4 witness. -/
theorem C4_full_witness :
    (NuanceAnalysis.mk
        ⟨.Left, EN_POLITICAL_LABELS.map (fun l => (l, (0 : ℚ)))⟩
        []).detected_intents =
      (((analyze_intents_full
          ⟨true, .returned (some (.jobj [])), .returned (some (.jobj [])),
           .returned (some (.jobj [])), .returned (some (.jobj []))⟩ "t"
          "en").numEntries.filter (fun p => p.2 > (3 : ℚ)/10)).map
        (fun p => map_to_intent p.1 "en")) :=
  ((C4_nuance_gate_full.1
      ⟨true, .returned (some (.jobj [])), .returned (some (.jobj [])),
       .returned (some (.jobj [])), .returned (some (.jobj []))⟩
      ⟨true, true⟩ ⟨2025, 1, 1, 0, 0, 0, 0⟩ "p" "t" "en").2
    ⟨⟨.Left, EN_POLITICAL_LABELS.map (fun l => (l, (0 : ℚ)))⟩, []⟩
    C4_nuance_gate_full.2.2.1
    C4_nuance_gate_full.2.2.2)

lemma map_to_intent_injOn (lang : String) (a b : String)
    (ha : a ∈ intentLabels lang) (hb : b ∈ intentLabels lang)
    (h : map_to_intent a lang = map_to_intent b lang) : a = b := by
  by_cases hl : lang = "de" <;>
    simp [intentLabels, hl, DE_INTENT_LABELS, EN_INTENT_LABELS] at ha hb <;>
    rcases ha with rfl | rfl | rfl | rfl | rfl | rfl <;>
    rcases hb with rfl | rfl | rfl | rfl | rfl | rfl <;>
    simp_all [map_to_intent, INTENT_TABLE, lookupD]

/-- C7 counterexample: a model reply whose intent `scores` object uses
labels of both languages makes the orchestrator emit the same Intent
twice: `detected_intents = [Informative, Informative]`, which is not
duplicate-free. -/
theorem C7_counterexample :
    (perform_full_analysis
        ⟨true, .returned (some (.jobj [])), .returned (some (.jobj [])),
         .returned (some (.jobj [("scores",
           .jobj [("Informative", .jnum (9/10)),
                  ("Informativ", .jnum (9/10))])])),
         .raised⟩
        ⟨true, true⟩ ⟨2025, 1, 1, 0, 0, 0, 0⟩ "p" "t" "en").nuance_analysis.map
        NuanceAnalysis.detected_intents =
      some [Intent.Informative, Intent.Informative] ∧
    ¬ ([Intent.Informative, Intent.Informative] : List Intent).Nodup := by
  refine ⟨?_, by decide⟩
  have hc : classify_post_type
      ⟨true, .returned (some (.jobj [])), .returned (some (.jobj [])),
       .returned (some (.jobj [("scores",
         .jobj [("Informative", .jnum (9/10)),
                ("Informativ", .jnum (9/10))])])),
       .raised⟩ "t" "en" =
      ("Factual Claim", 1/2, fillMissing [] EN_POST_TYPES) := by
    simp [classify_post_type, parseClassificationResponse, postTypeLabels_en,
      EN_POST_TYPES, jgetD, lookupD, JValue.asLabel, JValue.asNum,
      JValue.numEntries]
  have hi : analyze_intents
      ⟨true, .returned (some (.jobj [])), .returned (some (.jobj [])),
       .returned (some (.jobj [("scores",
         .jobj [("Informative", .jnum (9/10)),
                ("Informativ", .jnum (9/10))])])),
       .raised⟩ "t" "en" =
      [("Informative", 9/10), ("Informativ", 9/10), ("Persuasive", 0),
       ("Satirical", 0), ("Provocative", 0), ("Commercial", 0),
       ("Entertaining", 0)] := by
    simp [analyze_intents, parseIntentResponse, intentLabels_en,
      EN_INTENT_LABELS, jgetD, lookupD, JValue.numEntries, fillMissing]
  have hs : detect_spam "Factual Claim" (1/2) = false := by
    norm_num [detect_spam, SPAM_LABELS, SPAM_CONFIDENCE_THRESHOLD]
  norm_num [perform_full_analysis, run_triage, build_analysis_response,
    get_nuance_analysis, hc, hi, hs, build_intent_list,
    INTENT_CONFIDENCE_THRESHOLD, List.filter_cons, map_to_intent,
    INTENT_TABLE, lookupD]

/-- C7 amended: `detected_intents` is duplicate-free whenever the intent
score map's keys are distinct labels drawn from a single language's
intent label set (as holds for every default or well-formed reply); keys
mixing the two languages' labels, or unknown labels (which all default to
`Informative`), can produce duplicates. -/
theorem C7_intents_nodup_for_single_language_keys
    (scores : List (String × ℚ)) (lang : String)
    (hnd : (scores.map Prod.fst).Nodup)
    (hsub : ∀ p ∈ scores, p.1 ∈ intentLabels lang) :
    (build_intent_list scores lang).Nodup := by
  unfold build_intent_list
  apply List.Nodup.map_on
  · intro x hx y hy hf
    have hx' := List.mem_of_mem_filter hx
    have hy' := List.mem_of_mem_filter hy
    have h1 : x.1 = y.1 :=
      map_to_intent_injOn lang x.1 y.1 (hsub x hx') (hsub y hy') hf
    exact List.inj_on_of_nodup_map hnd hx' hy' h1
  · exact (List.Nodup.of_map _ hnd).filter _

/-- C7 witness. -/
theorem C7_witness :
    (build_intent_list [("Informative", (1 : ℚ)/2)] "en").Nodup :=
  C7_intents_nodup_for_single_language_keys [("Informative", (1 : ℚ)/2)] "en"
    (by simp) (by simp [intentLabels_en, EN_INTENT_LABELS])

/-- C8: each label-to-enum mapping ignores its language argument entirely,
and the English and German lookup entries agree position-wise for
PostType, PoliticalTendency and Intent; the veracity mapping has a single
shared table, so its result is language-independent by construction. -/
theorem C8_lookup_table_symmetry :
    (∀ (label l1 l2 : String),
      map_to_post_type label l1 = map_to_post_type label l2 ∧
      map_to_political_tendency label l1 = map_to_political_tendency label l2 ∧
      map_to_intent label l1 = map_to_intent label l2) ∧
    (∀ p ∈ EN_POST_TYPES.zip DE_POST_TYPES,
      map_to_post_type p.1 "en" = map_to_post_type p.2 "de") ∧
    (∀ p ∈ EN_POLITICAL_LABELS.zip DE_POLITICAL_LABELS,
      map_to_political_tendency p.1 "en" = map_to_political_tendency p.2 "de") ∧
    (∀ p ∈ EN_INTENT_LABELS.zip DE_INTENT_LABELS,
      map_to_intent p.1 "en" = map_to_intent p.2 "de") ∧
    (map_veracity_status "Factually Correct" = .FactuallyCorrect ∧
     map_veracity_status "Untruth" = .Untruth ∧
     map_veracity_status "Misleading" = .Misleading ∧
     map_veracity_status "Unverifiable" = .Unverifiable) := by
  refine ⟨fun label l1 l2 => ⟨rfl, rfl, rfl⟩, by decide, by decide, by decide,
    ⟨rfl, rfl, rfl, rfl⟩⟩

/-- C8 witness. -/
theorem C8_witness :
    map_to_post_type "Factual Claim" "en" =
      map_to_post_type "Faktische Behauptung" "de" :=
  C8_lookup_table_symmetry.2.1 ("Factual Claim", "Faktische Behauptung")
    (by decide)

/-- C9 counterexample: the timestamp written into every result is
`datetime.now(timezone.utc).isoformat() + "Z"`, which keeps the `+00:00`
offset and appends `"Z"` after it; the concrete result string ends in
`"+00:00Z"` and fails ISO-8601 well-formedness, while the two correct
single-designator forms pass. -/
theorem C9_counterexample :
    (perform_full_analysis ⟨false, .raised, .raised, .raised, .raised⟩
        ⟨true, true⟩ ⟨2025, 6, 15, 12, 30, 45, 0⟩ "p" "t"
        "en").analysis_timestamp = "2025-06-15T12:30:45+00:00Z" ∧
    validISO8601 "2025-06-15T12:30:45+00:00Z" = false ∧
    validISO8601 "2025-06-15T12:30:45+00:00" = true ∧
    validISO8601 "2025-06-15T12:30:45Z" = true ∧
    validISO8601 "2025-06-15T12:30:45.123456Z" = true := by
  exact ⟨by decide, by decide, by decide, by decide, by decide⟩

/-- C9 amended: every `analysis_timestamp` produced by
`perform_full_analysis` is `isoformat()` of the UTC instant followed by
the literal suffix `"+00:00Z"`: it does end in `"Z"`, but carries the
numeric offset before it rather than being a single-designator ISO-8601
UTC timestamp. -/
theorem C9_timestamp_has_offset_and_Z
    (env : GatewayEnv) (flags : Flags) (now : UTCDateTime)
    (pid text lang : String) :
    (perform_full_analysis env flags now pid text
        lang).analysis_timestamp.data =
      (isoBody now).data ++ "+00:00Z".data ∧
    "+00:00Z".data <:+
      (perform_full_analysis env flags now pid text
        lang).analysis_timestamp.data ∧
    ['Z'] <:+
      (perform_full_analysis env flags now pid text
        lang).analysis_timestamp.data := by
  have h1 : (perform_full_analysis env flags now pid text
      lang).analysis_timestamp.data = (isoBody now).data ++ "+00:00Z".data := by
    show (analysisTimestamp now).data = (isoBody now).data ++ "+00:00Z".data
    have : "+00:00Z".data = "+00:00".data ++ "Z".data := rfl
    simp [analysisTimestamp, isoformatUTC, String.data_append, this]
  refine ⟨h1, ?_, ?_⟩
  · rw [h1]; exact List.suffix_append _ _
  · rw [h1]
    have h2 : (isoBody now).data ++ "+00:00Z".data =
        ((isoBody now).data ++ "+00:00".data) ++ ['Z'] := by
      simp [List.append_assoc]
    rw [h2]
    exact List.suffix_append _ _

end SMCA
